import Mathlib

/-!
Verification of the whats-spinning recognition core.

Shallow embedding of `src/state.py` (class `StateManager`) and the
match-handling branch of the trigger loop in `src/main.py`
(`WhatSpinning.run`).  Wall-clock time and dB levels are modelled as
rationals; every Python call that reads `time.time()` takes the current
time `now : ℚ` as an explicit argument.  Methods that mutate the object
return the updated record (paired with the Python return value where the
method has one).
-/

/-- `RecognitionResult` dataclass from `src/recognizer.py`.  The
`raw_response` payload is an opaque service JSON object never read by the
state machine; it is modelled as an optional opaque string. -/
structure RecognitionResult where
  title : String
  artist : String
  album : Option String := none
  duration_ms : Option Int := none
  spotify_id : Option String := none
  raw_response : Option String := none
  deriving DecidableEq, Repr

/-- `StateManager` from `src/state.py`: configuration fields fixed at
construction followed by the mutable state fields, with the same defaults
as `StateManager.__init__`.  Python `int` durations embed into ℚ because
they are compared against float-valued elapsed times. -/
structure StateManager where
  cooldown_sec : ℚ := 120
  silence_duration_sec : ℚ := 5
  max_failed_attempts : ℤ := 3
  pause_duration_sec : ℚ := 900
  last_recognition_time : Option ℚ := none
  last_result : Option RecognitionResult := none
  silence_start_time : Option ℚ := none
  cumulative_silence_duration : ℚ := 0
  consecutive_failures : ℤ := 0
  paused_until : Option ℚ := none
  notification_deleted : Bool := false
  deriving DecidableEq, Repr

namespace StateManager

/-- The cooldown tail of `can_recognize` (state.py lines 63-67): allowed
when no prior recognition, otherwise when the elapsed time has reached the
cooldown (boundary inclusive). -/
def cooldown_ok (s : StateManager) (now : ℚ) : Bool :=
  match s.last_recognition_time with
  | none => true
  | some t => decide (s.cooldown_sec ≤ now - t)

/-- `StateManager.can_recognize` (state.py lines 47-67).  Returns the
Python boolean result together with the post-call state: when a set
`paused_until` has elapsed, the call clears it and zeroes
`consecutive_failures` before falling through to the cooldown check. -/
def can_recognize (s : StateManager) (now : ℚ) : Bool × StateManager :=
  match s.paused_until with
  | some p =>
      if now < p then (false, s)
      else
        let s' := { s with paused_until := none, consecutive_failures := 0 }
        (cooldown_ok s' now, s')
  | none => (cooldown_ok s now, s)

/-- `StateManager.is_same_track` (state.py lines 69-85).  A dataclass
instance is always truthy in Python, so `if not self.last_result` is
exactly the `None` test. -/
def is_same_track (s : StateManager) (result : RecognitionResult) : Bool :=
  match s.last_result with
  | none => false
  | some last => decide (result.title = last.title ∧ result.artist = last.artist)

/-- `StateManager._reset_silence` (state.py lines 158-161). -/
def reset_silence (s : StateManager) : StateManager :=
  { s with silence_start_time := none, cumulative_silence_duration := 0 }

/-- `StateManager.on_recognition` (state.py lines 100-112). -/
def on_recognition (s : StateManager) (result : RecognitionResult) (now : ℚ) :
    StateManager :=
  reset_silence
    { s with last_recognition_time := some now,
             last_result := some result,
             consecutive_failures := 0 }

/-- `StateManager.on_recognition_failed` (state.py lines 114-122):
increment the failure counter, and once it has reached
`max_failed_attempts` set `paused_until = now + pause_duration_sec`. -/
def on_recognition_failed (s : StateManager) (now : ℚ) : StateManager :=
  let s' := { s with consecutive_failures := s.consecutive_failures + 1 }
  if s'.max_failed_attempts ≤ s'.consecutive_failures then
    { s' with paused_until := some (now + s'.pause_duration_sec) }
  else
    s'

/-- `StateManager.on_silence` (state.py lines 124-130). -/
def on_silence (s : StateManager) : StateManager :=
  reset_silence
    { s with last_recognition_time := none,
             last_result := none,
             notification_deleted := true }

/-- `StateManager.update_silence_duration` (state.py lines 132-156).
Returns the Python boolean (sustained silence just fired) with the
post-call state. -/
def update_silence_duration (s : StateManager) (is_silent : Bool)
    (delta_sec : ℚ) (now : ℚ) : Bool × StateManager :=
  if is_silent then
    let sst := match s.silence_start_time with
      | none => some now
      | some t => some t
    let s1 := { s with silence_start_time := sst,
                       cumulative_silence_duration :=
                         s.cumulative_silence_duration + delta_sec }
    if s1.silence_duration_sec ≤ s1.cumulative_silence_duration then
      (true, on_silence s1)
    else
      (false, s1)
  else
    (false, reset_silence s)

/-- The status dictionary built by `StateManager.get_status`
(state.py lines 163-198), as a record with optional fields for the
key-presence-dependent entries. -/
structure Status where
  can_recognize : Bool
  in_cooldown : Bool
  cooldown_elapsed_sec : Option ℚ
  cooldown_remaining_sec : Option ℚ
  last_recognized : Option (String × String)
  silence_duration_sec : ℚ
  consecutive_failures : ℤ
  paused : Bool
  pause_remaining_sec : Option ℚ
  deriving DecidableEq, Repr

/-- `StateManager.get_status` (state.py lines 163-198).  The method calls
`self.can_recognize()` twice (for the `can_recognize` and `in_cooldown`
entries), so it inherits that call's lazy pause-expiry mutation; the
remaining entries are pure reads.  Python truthiness: the guard
`if self.last_recognition_time` is false both for `None` and for the
float `0.0`. -/
def get_status (s : StateManager) (now : ℚ) : Status × StateManager :=
  let r1 := can_recognize s now
  let r2 := can_recognize r1.2 now
  let s2 := r2.2
  let cooldown_elapsed : Option ℚ :=
    match s2.last_recognition_time with
    | none => none
    | some t => if t = 0 then none else some (now - t)
  let cooldown_remaining : Option ℚ :=
    match s2.last_recognition_time with
    | none => none
    | some t => if t = 0 then none else some (max 0 (s2.cooldown_sec - (now - t)))
  let last_recognized : Option (String × String) :=
    match s2.last_result with
    | none => none
    | some r => some (r.title, r.artist)
  let status : Status :=
    { can_recognize := r1.1
      in_cooldown := !r2.1
      cooldown_elapsed_sec := cooldown_elapsed
      cooldown_remaining_sec := cooldown_remaining
      last_recognized := last_recognized
      silence_duration_sec := s2.cumulative_silence_duration
      consecutive_failures := s2.consecutive_failures
      paused := s2.paused_until.isSome
      pause_remaining_sec :=
        match s2.paused_until with
        | none => none
        | some p => some (max 0 (p - now)) }
  (status, s2)

/-- Folding a sequence of `on_recognition_failed` calls, each tagged with
the wall-clock time at which it happens. -/
def fail_many (s : StateManager) (ts : List ℚ) : StateManager :=
  ts.foldl on_recognition_failed s

end StateManager

/-!
Trigger loop, `WhatSpinning.run` in `src/main.py`.  The per-tick volume
comparisons (lines 115 and 178) and the match-handling branch
(lines 127-152) are embedded; I/O calls are recorded as boolean events.
-/

/-- main.py line 115: a tick is trigger-eligible when the measured level
is strictly above the volume threshold. -/
def volume_trigger (volume_threshold_db : ℚ) (current_db : ℚ) : Bool :=
  decide (volume_threshold_db < current_db)

/-- main.py line 178: a tick is silent when the measured level is strictly
below the silence threshold. -/
def silent_tick (silence_threshold_db : ℚ) (current_db : ℚ) : Bool :=
  decide (current_db < silence_threshold_db)

/-- Observable effects of handling one successful recognition result:
whether a notification was pushed to the LaMetric display sink, whether
the result was appended to the recognition log, and the state left
behind. -/
structure MatchOutcome where
  pushed : Bool
  logged : Bool
  state : StateManager
  deriving DecidableEq, Repr

/-- The `if result:` branch of `WhatSpinning.run` (main.py lines 127-152):
query `is_same_track` first; a duplicate skips both the display push and
the log append, a new track pushes to the display sink (unless running
dry-run, where `self.lametric` is `None` and a line is printed instead)
and appends to the log; in both cases `on_recognition` is then called on
the match.  After `__init__`, `self.lametric` is present exactly when
`dry_run` is false. -/
def handle_match (dry_run : Bool) (s : StateManager)
    (result : RecognitionResult) (now : ℚ) : MatchOutcome :=
  let is_same := s.is_same_track result
  if is_same then
    { pushed := false, logged := false, state := s.on_recognition result now }
  else
    { pushed := !dry_run, logged := true, state := s.on_recognition result now }

/-! Concrete tracks and states used by witnesses and counterexamples. -/

/-- A sample recognition result. -/
def trackA : RecognitionResult := { title := "Blue in Green", artist := "Miles Davis" }

/-- A sample recognition result differing from `trackA` in the title. -/
def trackB : RecognitionResult := { title := "So What", artist := "Miles Davis" }

/-- A state in a pause window with an elapsed cooldown, for the C1 witness. -/
def c1ctx : StateManager :=
  { last_recognition_time := some 0, paused_until := some 1000 }

/-- Running a sequence of `update_silence_duration` calls, each tick given
as (is_silent, delta_sec, now); collects the returned booleans in order
together with the final state. -/
def silence_run (s : StateManager) (ticks : List (Bool × ℚ × ℚ)) :
    List Bool × StateManager :=
  ticks.foldl
    (fun acc tick =>
      let r := acc.2.update_silence_duration tick.1 tick.2.1 tick.2.2
      (acc.1 ++ [r.1], r.2))
    ([], s)

/-- A state holding a recognized track, for the C2 silence scenario
(default silence threshold 5.0 seconds). -/
def c2ctx : StateManager :=
  { last_recognition_time := some 100, last_result := some trackA }

/-- The four silent 1.5-second ticks of the C2 scenario. -/
def c2ticks : List (Bool × ℚ × ℚ) :=
  [(true, 3/2, 101), (true, 3/2, 102), (true, 3/2, 103), (true, 3/2, 104)]

/-- A state one failure into a pause with threshold 1, for the C4
counterexample. -/
def c4ctx : StateManager :=
  { max_failed_attempts := 1, consecutive_failures := 1,
    paused_until := some 10 }

/-- A paused state past the failure threshold, for the C5
counterexample. -/
def c5ctx : StateManager :=
  { consecutive_failures := 3, paused_until := some 10 }

/-!
Claim theorems.
-/

/-- Claim C1: for every state and current time, `can_recognize` returns
false while a set `paused_until` lies in the future; when the pause has
elapsed (boundary inclusive) the call clears `paused_until` and zeroes
`consecutive_failures`; with no (remaining) pause it returns true when
`last_recognition_time` is unset, and otherwise returns true iff
`now - last_recognition_time >= cooldown_sec`, boundary inclusive. -/
theorem can_recognize_spec (s : StateManager) (now : ℚ) :
    (∀ p, s.paused_until = some p → now < p →
      (s.can_recognize now).1 = false) ∧
    (∀ p, s.paused_until = some p → p ≤ now →
      (s.can_recognize now).2.paused_until = none ∧
      (s.can_recognize now).2.consecutive_failures = 0) ∧
    ((s.paused_until = none ∨ ∃ p, s.paused_until = some p ∧ p ≤ now) →
      s.last_recognition_time = none →
      (s.can_recognize now).1 = true) ∧
    ((s.paused_until = none ∨ ∃ p, s.paused_until = some p ∧ p ≤ now) →
      ∀ t, s.last_recognition_time = some t →
      ((s.can_recognize now).1 = true ↔ s.cooldown_sec ≤ now - t)) := by
  refine ⟨?_, ?_, ?_, ?_⟩
  · intro p hp hlt
    simp [StateManager.can_recognize, hp, hlt]
  · intro p hp hle
    simp [StateManager.can_recognize, hp, not_lt.mpr hle]
  · rintro (hnone | ⟨p, hp, hle⟩) hlrt
    · simp [StateManager.can_recognize, hnone, StateManager.cooldown_ok, hlrt]
    · simp [StateManager.can_recognize, hp, not_lt.mpr hle,
        StateManager.cooldown_ok, hlrt]
  · rintro (hnone | ⟨p, hp, hle⟩) t ht
    · simp [StateManager.can_recognize, hnone, StateManager.cooldown_ok, ht]
    · simp [StateManager.can_recognize, hp, not_lt.mpr hle,
        StateManager.cooldown_ok, ht]

/-- Witness for C1 at a concrete paused state and time. -/
theorem can_recognize_spec_witness :
    (c1ctx.can_recognize 500).1 = false :=
  (can_recognize_spec c1ctx 500).1 1000 rfl (by norm_num)

/-- Claim C7: `on_recognition_failed` leaves `last_recognition_time` and
`last_result` unchanged, and when it did not install a pause the outcome
of `can_recognize` at any time is the same as before the failure: no
cooldown is started by a failed attempt. -/
theorem on_recognition_failed_frame (s : StateManager) (now : ℚ) :
    (s.on_recognition_failed now).last_recognition_time =
      s.last_recognition_time ∧
    (s.on_recognition_failed now).last_result = s.last_result ∧
    ((s.on_recognition_failed now).paused_until = none →
      ∀ t, ((s.on_recognition_failed now).can_recognize t).1 =
        (s.can_recognize t).1) := by
  by_cases h : s.max_failed_attempts ≤ s.consecutive_failures + 1
  · simp [StateManager.on_recognition_failed, h]
  · have hform : s.on_recognition_failed now =
        { s with consecutive_failures := s.consecutive_failures + 1 } := by
      simp [StateManager.on_recognition_failed, h]
    rw [hform]
    refine ⟨rfl, rfl, fun hnone t => ?_⟩
    have hsp : s.paused_until = none := hnone
    simp [StateManager.can_recognize, hsp, StateManager.cooldown_ok]

/-- Witness for C7 at a concrete state with no pause resulting. -/
theorem on_recognition_failed_frame_witness :
    ((StateManager.on_recognition_failed { } 10).can_recognize 11).1 =
      (StateManager.can_recognize { } 11).1 :=
  (on_recognition_failed_frame { } 10).2.2 (by decide) 11

/-- Claim C8: `is_same_track` is false when no prior track is recorded,
and otherwise true exactly when both title and artist coincide with the
last result, by exact string equality. -/
theorem is_same_track_spec (s : StateManager) (r : RecognitionResult) :
    (s.last_result = none → s.is_same_track r = false) ∧
    (∀ last, s.last_result = some last →
      (s.is_same_track r = true ↔
        r.title = last.title ∧ r.artist = last.artist)) := by
  constructor
  · intro h
    simp [StateManager.is_same_track, h]
  · intro last h
    simp [StateManager.is_same_track, h]

/-- Witness for C8 with a recorded prior track equal to the candidate. -/
theorem is_same_track_spec_witness :
    StateManager.is_same_track { last_result := some trackA } trackA = true :=
  ((is_same_track_spec { last_result := some trackA } trackA).2 trackA
    rfl).mpr ⟨rfl, rfl⟩

/-- Claim C9: under the configuration invariant
`silence_threshold_db < volume_threshold_db`, one volume reading can
never make a tick both trigger-eligible (main.py line 115) and silent
(main.py line 178). -/
theorem thresholds_mutually_exclusive (sil vol db : ℚ) (h : sil < vol) :
    ¬(volume_trigger vol db = true ∧ silent_tick sil db = true) := by
  simp only [volume_trigger, silent_tick, decide_eq_true_eq]
  rintro ⟨h1, h2⟩
  linarith

/-- Witness for C9 at the default thresholds and a loud reading. -/
theorem thresholds_mutually_exclusive_witness :
    ¬(volume_trigger (-40) 0 = true ∧ silent_tick (-50) 0 = true) :=
  thresholds_mutually_exclusive (-50) (-40) 0 (by norm_num)

/-- Claim C10: once `consecutive_failures` is at or above
`max_failed_attempts`, every further `on_recognition_failed` call
overwrites `paused_until` with a fresh `now + pause_duration_sec`,
whatever pause was previously in place. -/
theorem on_recognition_failed_repause (s : StateManager) (now : ℚ)
    (h : s.max_failed_attempts ≤ s.consecutive_failures) :
    (s.on_recognition_failed now).paused_until =
      some (now + s.pause_duration_sec) := by
  have h1 : s.max_failed_attempts ≤ s.consecutive_failures + 1 := by omega
  simp [StateManager.on_recognition_failed, h1]

/-- Witness for C10 at a state already past the threshold with an
existing pause, refreshed to the new call time plus the pause length. -/
theorem on_recognition_failed_repause_witness :
    (StateManager.on_recognition_failed
      { consecutive_failures := 3, paused_until := some 50 } 100).paused_until =
      some 1000 := by
  exact (on_recognition_failed_repause
    { consecutive_failures := 3, paused_until := some 50 } 100
    (by decide)).trans (by norm_num)

/-- Claim C2: a silent tick adds its duration to the accumulator and
returns true exactly when the running total reaches the silence threshold
(boundary inclusive), in which case `last_recognition_time` and
`last_result` are cleared, the notification-pending-clear flag is set and
the accumulator is zeroed; a non-silent tick zeroes the accumulator
unconditionally and returns false, touching nothing else.  At threshold
5.0 seconds, four silent 1.5-second ticks return false, false, false,
true and leave the state cleared. -/
theorem update_silence_spec (s : StateManager) (d now : ℚ) :
    ((s.update_silence_duration false d now).1 = false ∧
     (s.update_silence_duration false d now).2.cumulative_silence_duration = 0 ∧
     (s.update_silence_duration false d now).2.last_recognition_time =
       s.last_recognition_time ∧
     (s.update_silence_duration false d now).2.last_result = s.last_result ∧
     (s.update_silence_duration false d now).2.notification_deleted =
       s.notification_deleted) ∧
    (s.cumulative_silence_duration + d < s.silence_duration_sec →
      (s.update_silence_duration true d now).1 = false ∧
      (s.update_silence_duration true d now).2.cumulative_silence_duration =
        s.cumulative_silence_duration + d ∧
      (s.update_silence_duration true d now).2.last_recognition_time =
        s.last_recognition_time ∧
      (s.update_silence_duration true d now).2.last_result = s.last_result ∧
      (s.update_silence_duration true d now).2.notification_deleted =
        s.notification_deleted) ∧
    (s.silence_duration_sec ≤ s.cumulative_silence_duration + d →
      (s.update_silence_duration true d now).1 = true ∧
      (s.update_silence_duration true d now).2.last_recognition_time = none ∧
      (s.update_silence_duration true d now).2.last_result = none ∧
      (s.update_silence_duration true d now).2.notification_deleted = true ∧
      (s.update_silence_duration true d now).2.cumulative_silence_duration = 0) ∧
    ((silence_run c2ctx c2ticks).1 = [false, false, false, true] ∧
     (silence_run c2ctx c2ticks).2.last_recognition_time = none ∧
     (silence_run c2ctx c2ticks).2.last_result = none ∧
     (silence_run c2ctx c2ticks).2.notification_deleted = true ∧
     (silence_run c2ctx c2ticks).2.cumulative_silence_duration = 0) := by
  refine ⟨?_, ?_, ?_, ?_⟩
  · simp [StateManager.update_silence_duration, StateManager.reset_silence]
  · intro hlt
    have hcond : ¬ s.silence_duration_sec ≤ s.cumulative_silence_duration + d :=
      not_le.mpr hlt
    simp [StateManager.update_silence_duration, hcond]
  · intro hle
    simp [StateManager.update_silence_duration, hle, StateManager.on_silence,
      StateManager.reset_silence]
  · norm_num [silence_run, c2ctx, c2ticks, StateManager.update_silence_duration,
      StateManager.on_silence, StateManager.reset_silence, List.foldl]

/-- Witness for C2 at a concrete below-threshold silent tick. -/
theorem update_silence_spec_witness :
    (StateManager.update_silence_duration { } true 1 7).1 = false :=
  (((update_silence_spec { } 1 7).2.1 (by norm_num)).1)

/-- Helper: while the failure counter stays strictly below the threshold,
a run of `on_recognition_failed` calls never installs a pause, increments
the counter by the number of calls, and preserves the configuration. -/
theorem fail_many_no_pause (ts : List ℚ) : ∀ s : StateManager,
    s.paused_until = none →
    s.consecutive_failures + (ts.length : ℤ) < s.max_failed_attempts →
    (s.fail_many ts).paused_until = none ∧
    (s.fail_many ts).consecutive_failures =
      s.consecutive_failures + (ts.length : ℤ) ∧
    (s.fail_many ts).pause_duration_sec = s.pause_duration_sec ∧
    (s.fail_many ts).max_failed_attempts = s.max_failed_attempts := by
  induction ts with
  | nil =>
    intro s hp _
    refine ⟨hp, ?_, rfl, rfl⟩
    simp [StateManager.fail_many]
  | cons t rest ih =>
    intro s hp hlt
    have hcast : s.consecutive_failures + ((rest.length : ℤ) + 1) <
        s.max_failed_attempts := by
      simpa [Int.add_comm] using hlt
    have hcond : ¬ s.max_failed_attempts ≤ s.consecutive_failures + 1 := by
      omega
    have hstep : s.on_recognition_failed t =
        { s with consecutive_failures := s.consecutive_failures + 1 } := by
      simp [StateManager.on_recognition_failed, hcond]
    have hfold : s.fail_many (t :: rest) =
        StateManager.fail_many (s.on_recognition_failed t) rest := rfl
    rw [hfold, hstep]
    obtain ⟨h1, h2, h3, h4⟩ :=
      ih { s with consecutive_failures := s.consecutive_failures + 1 }
        hp (by simp only; omega)
    refine ⟨h1, ?_, h3, h4⟩
    rw [h2]
    simp only [List.length_cons]
    push_cast
    omega

/-- Claim C3: starting from zero consecutive failures and no pause, a run
of strictly fewer than `max_failed_attempts` failure calls leaves
`paused_until` unset, while a run of exactly `max_failed_attempts` calls
sets it to the time of the last call plus `pause_duration_sec`. -/
theorem fail_threshold_spec (s : StateManager) (ts : List ℚ)
    (h0 : s.consecutive_failures = 0) (hp : s.paused_until = none) :
    ((ts.length : ℤ) < s.max_failed_attempts →
      (s.fail_many ts).paused_until = none) ∧
    (∀ (ts0 : List ℚ) (tlast : ℚ), ts = ts0 ++ [tlast] →
      (ts.length : ℤ) = s.max_failed_attempts →
      (s.fail_many ts).paused_until =
        some (tlast + s.pause_duration_sec)) := by
  constructor
  · intro hlt
    exact (fail_many_no_pause ts s hp (by omega)).1
  · rintro ts0 tlast rfl hlen
    have hlen0 : (ts0.length : ℤ) + 1 = s.max_failed_attempts := by
      simp only [List.length_append, List.length_cons, List.length_nil] at hlen
      push_cast at hlen ⊢
      omega
    obtain ⟨hp1, hc1, hd1, hm1⟩ := fail_many_no_pause ts0 s hp (by omega)
    have hfold : s.fail_many (ts0 ++ [tlast]) =
        StateManager.on_recognition_failed (s.fail_many ts0) tlast := by
      simp [StateManager.fail_many, List.foldl_append]
    rw [hfold]
    have hcond : (s.fail_many ts0).max_failed_attempts ≤
        (s.fail_many ts0).consecutive_failures + 1 := by
      rw [hm1, hc1, h0]
      omega
    simp [StateManager.on_recognition_failed, hcond, hd1]

/-- Witness for C3: with the default threshold 3, three failures at times
10, 20, 30 pause until 930, while the first two alone leave no pause. -/
theorem fail_threshold_spec_witness :
    (StateManager.fail_many { } [10, 20, 30]).paused_until = some 930 ∧
    (StateManager.fail_many { } [10, 20]).paused_until = none := by
  constructor
  · exact ((fail_threshold_spec { } [10, 20, 30] rfl rfl).2 [10, 20] 30 rfl
      (by norm_num)).trans (by norm_num)
  · exact (fail_threshold_spec { } [10, 20] rfl rfl).1 (by norm_num)

/-- Counterexample for C4: with `max_failed_attempts = 1`, after the
pause expires and `can_recognize` has healed the state, one single
further failure immediately installs a new pause, against the claim. -/
theorem pause_expiry_heals_counterexample :
    c4ctx.paused_until = some 10 ∧
    (c4ctx.can_recognize 20).2.paused_until = none ∧
    (c4ctx.can_recognize 20).2.consecutive_failures = 0 ∧
    ¬((c4ctx.can_recognize 20).2.on_recognition_failed 30).paused_until
        = none := by
  refine ⟨rfl, ?_, ?_, ?_⟩
  · norm_num [c4ctx, StateManager.can_recognize]
  · norm_num [c4ctx, StateManager.can_recognize]
  · have hform :
        ((c4ctx.can_recognize 20).2.on_recognition_failed 30).paused_until =
          some 930 := by
      norm_num [c4ctx, StateManager.can_recognize,
        StateManager.on_recognition_failed]
    rw [hform]
    simp

/-- Claim C4 (amended): once now has reached `paused_until`, the next
`can_recognize` call clears the pause and zeroes the failure counter with
no external intervention; provided `max_failed_attempts` is at least 2, a
single subsequent failure does not immediately set a new pause. -/
theorem pause_expiry_heals (s : StateManager) (now p : ℚ)
    (hp : s.paused_until = some p) (hle : p ≤ now) :
    (s.can_recognize now).2.paused_until = none ∧
    (s.can_recognize now).2.consecutive_failures = 0 ∧
    (2 ≤ s.max_failed_attempts → ∀ t,
      ((s.can_recognize now).2.on_recognition_failed t).paused_until
        = none) := by
  have hform : (s.can_recognize now).2 =
      { s with paused_until := none, consecutive_failures := 0 } := by
    simp [StateManager.can_recognize, hp, not_lt.mpr hle]
  rw [hform]
  refine ⟨rfl, rfl, fun hmax t => ?_⟩
  have hcond : ¬ s.max_failed_attempts ≤ (0 : ℤ) + 1 := by omega
  simp only [StateManager.on_recognition_failed]
  rw [if_neg hcond]

/-- Witness for C4 at the default threshold 3. -/
theorem pause_expiry_heals_witness :
    (StateManager.on_recognition_failed
      (StateManager.can_recognize
        { consecutive_failures := 3, paused_until := some 10 } 20).2
      30).paused_until = none :=
  (pause_expiry_heals { consecutive_failures := 3, paused_until := some 10 }
    20 10 rfl (by norm_num)).2.2 (by norm_num) 30

/-- Counterexample for C5: on a state whose pause has expired,
`get_status` returns a mutated state, because it reuses `can_recognize`
and thereby clears `paused_until` and `consecutive_failures`. -/
theorem get_status_mutation_counterexample :
    c5ctx.paused_until = some 10 ∧
    c5ctx.consecutive_failures = 3 ∧
    (c5ctx.get_status 20).2.paused_until = none ∧
    (c5ctx.get_status 20).2.consecutive_failures = 0 ∧
    (c5ctx.get_status 20).2 ≠ c5ctx := by
  have hform : (c5ctx.get_status 20).2 =
      { c5ctx with paused_until := none, consecutive_failures := 0 } := by
    norm_num [StateManager.get_status, StateManager.can_recognize, c5ctx,
      StateManager.cooldown_ok]
  rw [hform]
  refine ⟨rfl, rfl, rfl, rfl, ?_⟩
  intro h
  have := congrArg StateManager.consecutive_failures h
  simp [c5ctx] at this

/-- Claim C5 (amended): the state left behind by `get_status` is exactly
the state left behind by one `can_recognize` call at the same time: the
lazy pause-expiry clearing leaks into the status query, and whenever no
pause has expired (unpaused, or paused with now still before
`paused_until`), `get_status` mutates nothing. -/
theorem get_status_mutation (s : StateManager) (now : ℚ) :
    (s.get_status now).2 = (s.can_recognize now).2 ∧
    ((∀ p, s.paused_until = some p → now < p) →
      (s.get_status now).2 = s) := by
  have hunfold : (s.get_status now).2 =
      (StateManager.can_recognize (s.can_recognize now).2 now).2 := rfl
  have hid : (StateManager.can_recognize (s.can_recognize now).2 now).2 =
      (s.can_recognize now).2 := by
    cases hp : s.paused_until with
    | none => simp [StateManager.can_recognize, hp]
    | some p =>
      by_cases hlt : now < p
      · simp [StateManager.can_recognize, hp, hlt]
      · simp [StateManager.can_recognize, hp, hlt]
  refine ⟨hunfold.trans hid, fun hall => ?_⟩
  rw [hunfold, hid]
  cases hp : s.paused_until with
  | none => simp [StateManager.can_recognize, hp]
  | some p => simp [StateManager.can_recognize, hp, hall p hp]

/-- Witness for C5 at a concrete unpaused state in cooldown. -/
theorem get_status_mutation_witness :
    (StateManager.get_status { last_recognition_time := some 5 } 50).2 =
      { last_recognition_time := some 5 } :=
  (get_status_mutation { last_recognition_time := some 5 } 50).2
    (by intro p hp; simp at hp)

/-- Claim C6: on a match in the trigger loop (non-dry-run), a duplicate
of the last recognized track skips both the display push and the log
append, a different track is pushed to the display sink and appended to
the log, and in both cases `on_recognition` is called on the match, so
`last_recognition_time` is refreshed to the tick time and the cooldown
restarts even for a duplicate. -/
theorem handle_match_spec (s : StateManager) (r : RecognitionResult)
    (now : ℚ) :
    (s.is_same_track r = true →
      (handle_match false s r now).pushed = false ∧
      (handle_match false s r now).logged = false) ∧
    (s.is_same_track r = false →
      (handle_match false s r now).pushed = true ∧
      (handle_match false s r now).logged = true) ∧
    (handle_match false s r now).state = s.on_recognition r now ∧
    (handle_match false s r now).state.last_recognition_time = some now := by
  by_cases h : s.is_same_track r = true
  · simp [handle_match, h, StateManager.on_recognition,
      StateManager.reset_silence]
  · simp [handle_match, h, StateManager.on_recognition,
      StateManager.reset_silence]

/-- Witness for C6: a duplicate of the recorded track is neither pushed
nor logged, yet the recognition time is refreshed. -/
theorem handle_match_spec_witness :
    (handle_match false { last_result := some trackA } trackA 42).pushed
        = false ∧
    StateManager.last_recognition_time
      (handle_match false { last_result := some trackA } trackA 42).state
        = some 42 := by
  have h := handle_match_spec { last_result := some trackA } trackA 42
  exact ⟨(h.1 (by rfl)).1, h.2.2.2⟩
